import Mathlib

/-!
Verification of the WHIP server session orchestrator
(`pkg/whip/server.go` of the livekit-ingress repository).

The Go source is shallowly embedded below.  External collaborators
(the `onPublish` authorization callback, the WHIP handler's `Init`,
`Start`, `WaitForSessionEnd`, the SDP fragment extractor, and the RPC
client) are modelled as oracle inputs packaged in an environment
record: each field records the outcome the collaborator produces in
the run under consideration.  The two background goroutines spawned by
`createStream` are sequentialised: the start-phase goroutine's events
are appended after the synchronous return, and the wait-for-end
goroutine's events after the start-phase goroutine's deferred events.
The properties proved below only constrain event counts, final
registry contents, and orderings of events that occur within a single
goroutine, all of which are invariant under this sequentialisation.
-/

namespace Whip

/-- Track kinds (`types.StreamKind`). -/
inductive StreamKind
  | audio
  | video
deriving DecidableEq, Repr

/-- Observable events of a `createStream` run: registry mutations,
collaborator calls, and the two completion callbacks.  `readyCall m e`
records an invocation of the ready callback where `m` says whether the
mime-type map argument was non-nil and `e` whether the error argument
was non-nil; `endedCall e` records an invocation of the ended callback
with `e` saying whether its error argument was non-nil. -/
inductive Event
  | registryInsert (id : String)
  | registryRemove (id : String)
  | startCall
  | waitEndCall
  | readyCall (mimePresent : Bool) (errPresent : Bool)
  | setStats
  | endedCall (errPresent : Bool)
deriving DecidableEq, Repr

/-- Error values flowing through the server.  `ingressNotFound` and
`invalidRestart` are the fixed sentinel errors of `pkg/errors`;
`rpcFailed` is a psrpc transport error carrying its own status and
message; the remaining constructors stand for the opaque error values
returned by the collaborators. -/
inductive Err
  | ingressNotFound
  | invalidRestart
  | publishFailed
  | initFailed
  | bodyReadFailed
  | rpcFailed (status : Nat) (msg : String)
deriving DecidableEq, Repr

/-- Result of an RPC call (`psrpc`): the distinguished `ErrNoResponse`
value, or a transport error carrying a status and message. -/
inductive RpcFailure
  | noResponse
  | failure (status : Nat) (msg : String)
deriving DecidableEq, Repr

/-- The registry `s.handlers`: the set of registered resource ids.
Handlers inserted by `createStream` are never nil, so the Go map's
values are not modelled; `ok && h != nil` is membership. -/
abbrev Registry := List String

/-- `s.handlers[resourceId] = h` (Go map write; idempotent on the key set). -/
def regInsert (reg : Registry) (id : String) : Registry :=
  if id ∈ reg then reg else id :: reg

/-- `delete(s.handlers, resourceId)` (Go map delete; no-op if absent). -/
def regRemove (reg : Registry) (id : String) : Registry :=
  reg.erase id

/-- Oracle environment of one `createStream` call: the fresh resource
id generated by `utils.NewGuid`, and the outcome every collaborator
produces in this run.  `readyNonNil`/`endedNonNil` record whether the
callbacks returned by `onPublish` are non-nil Go functions. -/
structure Env where
  resourceId : String
  publishOk : Bool
  readyNonNil : Bool
  endedNonNil : Bool
  initOk : Bool
  sdpAnswer : String
  startOk : Bool
  statsNonNil : Bool
  waitEndErr : Bool
deriving DecidableEq, Repr

/-- The inner background goroutine of `createStream` (server.go lines
389–406): `err = h.WaitForSessionEnd(s.ctx)`, then the deferred
function removes the session from the registry, logs, and invokes
`ended(err)` if `ended` is non-nil. -/
def waitEndTask (env : Env) (reg : Registry) : Registry × List Event :=
  (regRemove reg env.resourceId,
    [Event.waitEndCall, Event.registryRemove env.resourceId] ++
      (if env.endedNonNil then [Event.endedCall env.waitEndErr] else []))

/-- The outer background goroutine of `createStream` (server.go lines
357–407).  If `ready` is non-nil it defers: `stats := ready(mimeTypes,
err)`, attach stats if non-nil, and `delete(s.handlers, resourceId)`
if `err != nil`.  It then registers the handler, calls `h.Start(ctx)`,
and on success spawns `waitEndTask`.  On `Start` failure it returns,
firing the deferred function (note: the ready call is executed before
the registry delete). -/
def startPhaseTask (env : Env) (reg : Registry) : Registry × List Event :=
  let reg1 := regInsert reg env.resourceId
  let evStart := [Event.registryInsert env.resourceId, Event.startCall]
  if env.startOk then
    let evDefer :=
      if env.readyNonNil then
        [Event.readyCall true false] ++
          (if env.statsNonNil then [Event.setStats] else [])
      else []
    let wt := waitEndTask env reg1
    (wt.1, evStart ++ evDefer ++ wt.2)
  else
    if env.readyNonNil then
      (regRemove reg1 env.resourceId,
        evStart ++ [Event.readyCall false true] ++
          (if env.statsNonNil then [Event.setStats] else []) ++
          [Event.registryRemove env.resourceId])
    else
      (reg1, evStart)

deriving instance DecidableEq for Except

/-- Outcome of a `createStream` call: the synchronous return value,
whether the synchronous part panicked (a nil `ready` function invoked
on the `Init` failure path, server.go line 353 has no nil check), the
events of the synchronous part, the events of the background tasks,
and the registry once all spawned tasks have finished. -/
structure CreateOutcome where
  ret : Except Err (String × String)
  panicked : Bool
  syncTrace : List Event
  bgTrace : List Event
  registry : Registry
deriving DecidableEq, Repr

/-- `createStream` (server.go lines 338–410): generate the resource
id, call `onPublish`; on failure return the error (nothing registered,
no callback owed).  Call `h.Init` under the negotiation deadline; on
failure call `ready(nil, err)` and return the error.  On success
return `(resourceId, sdpResponse)` and launch `startPhaseTask` in the
background. -/
def createStream (env : Env) (reg : Registry) : CreateOutcome :=
  if env.publishOk then
    if env.initOk then
      let bg := startPhaseTask env reg
      { ret := Except.ok (env.resourceId, env.sdpAnswer), panicked := false,
        syncTrace := [], bgTrace := bg.2, registry := bg.1 }
    else if env.readyNonNil then
      { ret := Except.error Err.initFailed, panicked := false,
        syncTrace := [Event.readyCall false true], bgTrace := [], registry := reg }
    else
      { ret := Except.error Err.initFailed, panicked := true,
        syncTrace := [], bgTrace := [], registry := reg }
  else
    { ret := Except.error Err.publishFailed, panicked := false,
      syncTrace := [], bgTrace := [], registry := reg }

/-- The full event trace of a run: synchronous part followed by the
sequentialised background tasks. -/
def CreateOutcome.trace (o : CreateOutcome) : List Event :=
  o.syncTrace ++ o.bgTrace

def Event.isReady : Event → Bool
  | Event.readyCall _ _ => true
  | _ => false

def Event.isReadyErr : Event → Bool
  | Event.readyCall _ true => true
  | _ => false

def Event.isEnded : Event → Bool
  | Event.endedCall _ => true
  | _ => false

def Event.isRemove : Event → Bool
  | Event.registryRemove _ => true
  | _ => false

def Event.isInsert : Event → Bool
  | Event.registryInsert _ => true
  | _ => false

def Event.isStart : Event → Bool
  | Event.startCall => true
  | _ => false

/-- Number of events satisfying `p` in a trace. -/
def countEv (p : Event → Bool) (tr : List Event) : Nat :=
  (tr.filter p).length

/-- Index of the first event satisfying `p`, if any. -/
def firstIdx (p : Event → Bool) : List Event → Option Nat
  | [] => none
  | e :: tr => if p e then some 0 else (firstIdx p tr).map (fun i => i + 1)

/-- Both kinds of event occur and the first `p`-event strictly
precedes the first `q`-event. -/
def firstBefore (p q : Event → Bool) (tr : List Event) : Bool :=
  match firstIdx p tr, firstIdx q tr with
  | some i, some j => decide (i < j)
  | _, _ => false

/-- Whenever both kinds of event occur, the first `p`-event strictly
precedes the first `q`-event (vacuously true otherwise). -/
def whenBothFirstBefore (p q : Event → Bool) (tr : List Event) : Bool :=
  match firstIdx p tr, firstIdx q tr with
  | some i, some j => decide (i < j)
  | _, _ => true

/-- One bit-step of the reflected CRC-32 update: shift right, xor the
polynomial 0xEDB88320 when the low bit was set. -/
def crc32BitStep (r : Nat) : Nat :=
  if r % 2 == 1 then (r / 2) ^^^ 0xEDB88320 else r / 2

/-- `n` bit-steps of the CRC-32 update. -/
def crc32Bits : Nat → Nat → Nat
  | 0, r => r
  | n + 1, r => crc32Bits n (crc32BitStep r)

/-- Fold one input byte into the running CRC-32 value. -/
def crc32Byte (r b : Nat) : Nat :=
  crc32Bits 8 (r ^^^ (b % 256))

/-- `crc32.ChecksumIEEE`: the standard reflected CRC-32 (polynomial
0xEDB88320, initial value and final xor 0xFFFFFFFF) of a byte list. -/
def crc32IEEE (bs : List Nat) : Nat :=
  (bs.foldl crc32Byte 0xFFFFFFFF) ^^^ 0xFFFFFFFF

/-- Lowercase hexadecimal digit of a value below 16. -/
def hexDigitChar (n : Nat) : Char :=
  if n < 10 then Char.ofNat (48 + n) else Char.ofNat (87 + n)

/-- `fmt.Sprintf("%08x", n)` for `n < 2^32`: exactly eight lowercase,
zero-padded hexadecimal digits, most significant first. -/
def hex8 (n : Nat) : String :=
  String.mk
    [hexDigitChar (n / 16 ^ 7 % 16), hexDigitChar (n / 16 ^ 6 % 16),
     hexDigitChar (n / 16 ^ 5 % 16), hexDigitChar (n / 16 ^ 4 % 16),
     hexDigitChar (n / 16 ^ 3 % 16), hexDigitChar (n / 16 ^ 2 % 16),
     hexDigitChar (n / 16 % 16), hexDigitChar (n % 16)]

/-- UTF-8 bytes of a string, as a list of naturals. -/
def strBytes (s : String) : List Nat :=
  s.toUTF8.toList.map (fun b => b.toNat)

/-- An HTTP response being assembled: status code, headers in the
order they were set, body bytes written (as a string). -/
structure HttpResponse where
  status : Nat
  headers : List (String × String)
  body : String
deriving DecidableEq, Repr

/-- Value of the first header with the given name, or `""` (Go's
`Header.Get` on the canonical key). -/
def headerGet (hs : List (String × String)) (k : String) : String :=
  match hs.find? (fun p => p.1 == k) with
  | some p => p.2
  | none => ""

/-- `handleError` (server.go lines 294–306): a psrpc error writes its
own HTTP status and message; a nil error writes nothing (the response
was already written); anything else writes a bare 500.
Modelled from the spec: the sentinel errors live in `pkg/errors`,
which is outside the provided sources; per the spec's error classifier
the fixed "ingress not found" sentinel is a psrpc error carrying the
not-found status (404) and its message, and the restart validation
sentinel carries the bad-request status (400) and its message.  The
collaborators' opaque errors take the default branch. -/
def handleError (e : Option Err) (resp : HttpResponse) : HttpResponse :=
  match e with
  | none => resp
  | some Err.ingressNotFound =>
      { resp with status := 404, body := resp.body ++ "ingress not found" }
  | some Err.invalidRestart =>
      { resp with status := 400, body := resp.body ++ "invalid WHIP restart request" }
  | some (Err.rpcFailed s m) => { resp with status := s, body := resp.body ++ m }
  | some _ => { resp with status := 500 }

/-- Outcome of the DELETE (teardown) route: the final response after
the deferred `handleError`, and whether the RPC client was called. -/
structure DeleteOutcome where
  resp : HttpResponse
  rpcCalled : Bool
deriving DecidableEq, Repr

/-- The DELETE route handler (server.go lines 129–152): set the CORS
origin header, call `DeleteWHIPResource` over RPC, remap the
distinguished `psrpc.ErrNoResponse` to `ErrIngressNotFound`, and let
the deferred `handleError` write the response (success writes nothing
further; the implicit Go status is 200). -/
def handleDelete (rpcResult : Except RpcFailure Unit) : DeleteOutcome :=
  let base : HttpResponse :=
    { status := 200, headers := [("Access-Control-Allow-Origin", "*")], body := "" }
  let e : Option Err :=
    match rpcResult with
    | Except.ok _ => none
    | Except.error RpcFailure.noResponse => some Err.ingressNotFound
    | Except.error (RpcFailure.failure s m) => some (Err.rpcFailed s m)
  { resp := handleError e base, rpcCalled := true }

/-- Outcome of the PATCH (ICE restart) route: final response, whether
the RPC client was called, and which error (if any) was passed to
`handleError` (`none` when no error path was taken). -/
structure RestartOutcome where
  resp : HttpResponse
  rpcCalled : Bool
  errPassed : Option Err
deriving DecidableEq, Repr

/-- The PATCH (ICE restart) route handler (server.go lines 155–218).
`ifMatch` is the request's `If-Match` header value (`""` when
absent); `bodyRead` is `none` when reading the request body fails;
`extracted` is the result of `ScherbanExtractDetails` on the body;
`rpcResult` is the RPC call's result, carrying the response's
`TrickleIceSdpfrag` on success.  If `If-Match` is not exactly `"*"`
the handler writes 204 with no body and returns — no RPC call, no
error.  Otherwise a body-read failure, an extraction failure, or an
empty ufrag/password each yield the restart validation error; the RPC
call's `ErrNoResponse` yields the not-found sentinel; other RPC errors
are handled as-is; on success it writes the fragment with its
Content-Type and an `ETag` that is the CRC-32 of the response
fragment. -/
def handleIceRestart (ifMatch : String) (bodyRead : Option String)
    (extracted : Except Unit (String × String))
    (rpcResult : Except RpcFailure String) : RestartOutcome :=
  let base : HttpResponse :=
    { status := 200, headers := [("Access-Control-Allow-Origin", "*")], body := "" }
  if ifMatch ≠ "*" then
    { resp := { base with status := 204 }, rpcCalled := false, errPassed := none }
  else
    match bodyRead with
    | none =>
        { resp := handleError (some Err.invalidRestart) base,
          rpcCalled := false, errPassed := some Err.invalidRestart }
    | some _ =>
        match extracted with
        | Except.error _ =>
            { resp := handleError (some Err.invalidRestart) base,
              rpcCalled := false, errPassed := some Err.invalidRestart }
        | Except.ok (ufrag, pwd) =>
            if ufrag = "" ∨ pwd = "" then
              { resp := handleError (some Err.invalidRestart) base,
                rpcCalled := false, errPassed := some Err.invalidRestart }
            else
              match rpcResult with
              | Except.error RpcFailure.noResponse =>
                  { resp := handleError (some Err.ingressNotFound) base,
                    rpcCalled := true, errPassed := some Err.ingressNotFound }
              | Except.error (RpcFailure.failure s m) =>
                  { resp := handleError (some (Err.rpcFailed s m)) base,
                    rpcCalled := true, errPassed := some (Err.rpcFailed s m) }
              | Except.ok frag =>
                  { resp :=
                      { status := 200,
                        headers := base.headers ++
                          [("Content-Type", "application/trickle-ice-sdpfrag"),
                           ("ETag", hex8 (crc32IEEE (strBytes frag)))],
                        body := frag },
                    rpcCalled := true, errPassed := none }

/-- Outcome of the POST (create) route around `handleNewWhipClient`:
the final response after the deferred `handleError`, the error the
handler returned (if any), and the `createStream` registry/traces. -/
structure CreateHttpOutcome where
  resp : HttpResponse
  err : Option Err
  registry : Registry
  syncTrace : List Event
  bgTrace : List Event
deriving DecidableEq, Repr

/-- `handleNewWhipClient` (server.go lines 308–336) together with the
route's deferred `handleError`: read the offer body (`none` models an
`io.Copy` failure), call `createStream`, and on success write the
CORS allow/expose headers, `Content-Type: application/sdp`, a
`Location` of `/{app}/{streamKey}/{resourceId}`, an `ETag` that is the
`%08x` CRC-32 of the offer bytes, status 201, and the answer body. -/
def handleNewWhipClient (env : Env) (reg : Registry) (app streamKey : String)
    (offerBody : Option (List Nat)) : CreateHttpOutcome :=
  let base : HttpResponse := { status := 200, headers := [], body := "" }
  match offerBody with
  | none =>
      { resp := handleError (some Err.bodyReadFailed) base,
        err := some Err.bodyReadFailed, registry := reg,
        syncTrace := [], bgTrace := [] }
  | some offer =>
      let out := createStream env reg
      match out.ret with
      | Except.error e =>
          { resp := handleError (some e) base, err := some e,
            registry := out.registry,
            syncTrace := out.syncTrace, bgTrace := out.bgTrace }
      | Except.ok (resourceId, sdp) =>
          { resp :=
              { status := 201,
                headers :=
                  [("Access-Control-Allow-Origin", "*"),
                   ("Access-Control-Expose-Headers", "Location, ETag"),
                   ("Content-Type", "application/sdp"),
                   ("Location", "/" ++ app ++ "/" ++ streamKey ++ "/" ++ resourceId),
                   ("ETag", hex8 (crc32IEEE offer))],
                body := sdp },
            err := none, registry := out.registry,
            syncTrace := out.syncTrace, bgTrace := out.bgTrace }

/-- `AssociateRelay` (server.go lines 262–276): look the resource id
up in the registry under the lock; if present, delegate to the
handler's `AssociateRelay` (whose outcome is the oracle
`handlerResult`); otherwise fail with the not-found sentinel. -/
def AssociateRelay (reg : Registry) (resourceId : String) (kind : StreamKind)
    (token : String) (handlerResult : Option Err) : Except Err Unit :=
  if resourceId ∈ reg then
    match handlerResult with
    | some e => Except.error e
    | none => Except.ok ()
  else
    Except.error Err.ingressNotFound

/-- `DissociateRelay` (server.go lines 278–285): look the resource id
up; if present, delegate to the handler's `DissociateRelay`.  The Go
function has no return value at all, so the embedding never produces
an error; the boolean records whether the handler was invoked. -/
def DissociateRelay (reg : Registry) (resourceId : String) (kind : StreamKind) :
    Except Err Bool :=
  if resourceId ∈ reg then Except.ok true else Except.ok false

/-- The characters of the literal `"Bearer "`. -/
def bearerChars : List Char := ['B', 'e', 'a', 'r', 'e', 'r', ' ']

/-- Go's `strings.TrimPrefix(s, pat)`: drop the leading occurrence of
`pat` when present, otherwise return `s` unchanged.  Header values are
modelled as character lists. -/
def goTrimLeading (s pat : List Char) : List Char :=
  if pat.isPrefixOf s then s.drop pat.length else s

/-- The bare `/{app}` POST route's stream-key extraction (server.go
lines 100–102): `r.Header.Get("Authorization")` (the empty string when
the header is absent) with a leading `"Bearer "` trimmed. -/
def streamKeyFromAuth (authHeader : Option (List Char)) : List Char :=
  goTrimLeading (match authHeader with | some v => v | none => []) bearerChars

/-!  ### Concrete runs used by witnesses and counterexamples -/

/-- A run in which every phase succeeds. -/
def envHappy : Env :=
  { resourceId := "RS_ok", publishOk := true, readyNonNil := true,
    endedNonNil := true, initOk := true, sdpAnswer := "v=0 answer",
    startOk := true, statsNonNil := false, waitEndErr := false }

/-- A run in which the start phase fails (or times out). -/
def envStartFail : Env :=
  { envHappy with startOk := false }

/-- A run in which negotiation (`Init`) fails (or times out). -/
def envInitFail : Env :=
  { envHappy with initOk := false }

/-- A run in which authorization (`onPublish`) fails. -/
def envAuthFail : Env :=
  { envHappy with publishOk := false }

set_option maxRecDepth 8192 in
/-- Sanity check of the CRC-32 embedding: the standard check value
`crc32("123456789") = 0xCBF43926`, and its `%08x` rendering. -/
theorem crc32IEEE_check_value :
    crc32IEEE [49, 50, 51, 52, 53, 54, 55, 56, 57] = 0xCBF43926 ∧
    hex8 0xCBF43926 = "cbf43926" := by decide

/-!  ### The claims -/

/-- C1: for every `createStream` call in which authorization
(`onPublish`) succeeds, the ready callback is invoked exactly once
across all execution paths — once synchronously when negotiation
fails, or once in the background start-phase task regardless of the
start outcome; when authorization fails it is never invoked. -/
theorem C1_ready_called_exactly_once (env : Env) (reg : Registry)
    (hready : env.readyNonNil = true) :
    (env.publishOk = true →
      countEv Event.isReady (createStream env reg).trace = 1 ∧
      (env.initOk = false →
        countEv Event.isReady (createStream env reg).syncTrace = 1 ∧
        (createStream env reg).bgTrace = []) ∧
      (env.initOk = true →
        (createStream env reg).syncTrace = [] ∧
        countEv Event.isReady (createStream env reg).bgTrace = 1)) ∧
    (env.publishOk = false →
      countEv Event.isReady (createStream env reg).trace = 0) := by
  obtain ⟨rid, pOk, rNN, eNN, iOk, sdp, sOk, st, wE⟩ := env
  cases rNN <;> cases pOk <;> cases iOk <;> cases sOk <;> cases st <;> cases eNN <;>
    simp_all [createStream, startPhaseTask, waitEndTask, CreateOutcome.trace,
      countEv, Event.isReady]

theorem C1_witness :
    countEv Event.isReady (createStream envHappy []).trace = 1 :=
  ((C1_ready_called_exactly_once envHappy [] rfl).1 rfl).1

/-- C2: for every session whose start phase fails or exceeds its
bounded deadline, the session is removed from the registry as part of
handling the failure (no stale entry remains), and the ended callback
is not invoked for that session. -/
theorem C2_start_failure_cleanup (env : Env) (reg : Registry)
    (hready : env.readyNonNil = true) (hfresh : env.resourceId ∉ reg)
    (hp : env.publishOk = true) (hi : env.initOk = true)
    (hs : env.startOk = false) :
    env.resourceId ∉ (createStream env reg).registry ∧
    countEv Event.isEnded (createStream env reg).trace = 0 := by
  cases hst : env.statsNonNil <;>
    simp [createStream, startPhaseTask, waitEndTask, CreateOutcome.trace,
      countEv, Event.isEnded, regInsert, regRemove, hp, hi, hs, hready, hfresh, hst]

theorem C2_witness :
    envStartFail.resourceId ∉ (createStream envStartFail []).registry ∧
    countEv Event.isEnded (createStream envStartFail []).trace = 0 :=
  C2_start_failure_cleanup envStartFail [] rfl (by decide) rfl rfl rfl

/-- C4: the ended callback is invoked if and only if the start phase
succeeded (the wait-for-end operation then returned), and it is
invoked at most once. -/
theorem C4_ended_iff_start_success (env : Env) (reg : Registry)
    (hended : env.endedNonNil = true) :
    countEv Event.isEnded (createStream env reg).trace ≤ 1 ∧
    (countEv Event.isEnded (createStream env reg).trace = 1 ↔
      env.publishOk = true ∧ env.initOk = true ∧ env.startOk = true) := by
  obtain ⟨rid, pOk, rNN, eNN, iOk, sdp, sOk, st, wE⟩ := env
  cases eNN <;> cases pOk <;> cases iOk <;> cases sOk <;> cases rNN <;> cases st <;>
    simp_all [createStream, startPhaseTask, waitEndTask, CreateOutcome.trace,
      countEv, Event.isEnded]

theorem C4_witness :
    countEv Event.isEnded (createStream envHappy []).trace = 1 :=
  (C4_ended_iff_start_success envHappy [] rfl).2.mpr ⟨rfl, rfl, rfl⟩

/-- C5: for every `createStream` call in which negotiation fails or
exceeds its bounded deadline, the (non-nil) ready callback is invoked
with `(nil, error)` exactly once and synchronously, the error is
returned synchronously to the caller, and the registry is left
untouched — the session is never registered. -/
theorem C5_negotiation_failure_sync (env : Env) (reg : Registry)
    (hready : env.readyNonNil = true) (hp : env.publishOk = true)
    (hi : env.initOk = false) :
    (createStream env reg).syncTrace = [Event.readyCall false true] ∧
    (createStream env reg).bgTrace = [] ∧
    (createStream env reg).ret = Except.error Err.initFailed ∧
    (createStream env reg).registry = reg ∧
    countEv Event.isInsert (createStream env reg).trace = 0 := by
  simp [createStream, CreateOutcome.trace, countEv, Event.isInsert, hp, hi, hready]

theorem C5_witness :
    (createStream envInitFail []).syncTrace = [Event.readyCall false true] ∧
    (createStream envInitFail []).bgTrace = [] ∧
    (createStream envInitFail []).ret = Except.error Err.initFailed ∧
    (createStream envInitFail []).registry = [] ∧
    countEv Event.isInsert (createStream envInitFail []).trace = 0 :=
  C5_negotiation_failure_sync envInitFail [] rfl rfl rfl

/-- C3, counterexample: the claim requires that wherever registry
removal and a completion callback must both occur for the same phase,
the removal happens strictly before the callback; but in the run where
the start phase fails (authorized, negotiated, start failure, non-nil
ready callback) the deferred function invokes the ready callback with
its error strictly before it deletes the session from the registry, so
the removal does not precede the callback. -/
theorem C3_counterexample :
    whenBothFirstBefore Event.isRemove Event.isReadyErr
      (createStream envStartFail []).trace = false := by decide

/-- C3, amended: registration happens strictly before the start
operation is invoked; removal happens strictly before the ended
callback wherever both occur; but for the ready callback after a start
failure the order is reversed — the ready callback is invoked strictly
before the session is removed from the registry. -/
theorem C3_ordering_amended (env : Env) (reg : Registry) :
    (env.publishOk = true → env.initOk = true →
      firstBefore Event.isInsert Event.isStart (createStream env reg).bgTrace = true) ∧
    whenBothFirstBefore Event.isRemove Event.isEnded
      (createStream env reg).trace = true ∧
    (env.publishOk = true → env.initOk = true → env.startOk = false →
      env.readyNonNil = true →
      firstBefore Event.isReadyErr Event.isRemove
        (createStream env reg).bgTrace = true) := by
  obtain ⟨rid, pOk, rNN, eNN, iOk, sdp, sOk, st, wE⟩ := env
  cases pOk <;> cases iOk <;> cases sOk <;> cases rNN <;> cases eNN <;> cases st <;>
    simp_all [createStream, startPhaseTask, waitEndTask, CreateOutcome.trace,
      firstBefore, whenBothFirstBefore, firstIdx,
      Event.isInsert, Event.isStart, Event.isRemove, Event.isEnded, Event.isReadyErr]

theorem C3_witness :
    firstBefore Event.isInsert Event.isStart
      (createStream envStartFail []).bgTrace = true ∧
    firstBefore Event.isReadyErr Event.isRemove
      (createStream envStartFail []).bgTrace = true :=
  ⟨(C3_ordering_amended envStartFail []).1 rfl rfl,
   (C3_ordering_amended envStartFail []).2.2 rfl rfl rfl rfl⟩

/-- C6: every ICE-restart (PATCH) request whose `If-Match` header is
not exactly `"*"` is answered with status 204 and no body, no RPC call
is made, and no error path is taken. -/
theorem C6_ice_restart_without_ifmatch (ifMatch : String)
    (bodyRead : Option String) (extracted : Except Unit (String × String))
    (rpcResult : Except RpcFailure String) (h : ifMatch ≠ "*") :
    (handleIceRestart ifMatch bodyRead extracted rpcResult).resp.status = 204 ∧
    (handleIceRestart ifMatch bodyRead extracted rpcResult).resp.body = "" ∧
    (handleIceRestart ifMatch bodyRead extracted rpcResult).rpcCalled = false ∧
    (handleIceRestart ifMatch bodyRead extracted rpcResult).errPassed = none := by
  simp [handleIceRestart, h]

theorem C6_witness :
    (handleIceRestart "" none (Except.error ())
      (Except.error RpcFailure.noResponse)).resp.status = 204 ∧
    (handleIceRestart "" none (Except.error ())
      (Except.error RpcFailure.noResponse)).resp.body = "" ∧
    (handleIceRestart "" none (Except.error ())
      (Except.error RpcFailure.noResponse)).rpcCalled = false ∧
    (handleIceRestart "" none (Except.error ())
      (Except.error RpcFailure.noResponse)).errPassed = none :=
  C6_ice_restart_without_ifmatch "" none (Except.error ())
    (Except.error RpcFailure.noResponse) (by decide)

/-- C7, counterexample: the claim requires that for a resource id
absent from the registry the dissociate-relay operation fails with a
not-found error; but `DissociateRelay` has no error result at all — on
an absent id it silently does nothing, so it does not produce the
not-found error. -/
theorem C7_counterexample :
    ¬ (DissociateRelay [] "RS_missing" StreamKind.audio =
        Except.error Err.ingressNotFound) := by decide

/-- C7, amended: for every resource id absent from the registry the
associate-relay operation fails with the not-found error, while the
dissociate-relay operation (whose Go signature returns nothing) does
not fail and does not delegate to any handler. -/
theorem C7_relay_not_found_amended (reg : Registry) (resourceId : String)
    (kind : StreamKind) (token : String) (handlerResult : Option Err)
    (h : resourceId ∉ reg) :
    AssociateRelay reg resourceId kind token handlerResult =
      Except.error Err.ingressNotFound ∧
    DissociateRelay reg resourceId kind = Except.ok false := by
  simp [AssociateRelay, DissociateRelay, h]

theorem C7_witness :
    AssociateRelay [] "RS_gone" StreamKind.video "tok" none =
      Except.error Err.ingressNotFound ∧
    DissociateRelay [] "RS_gone" StreamKind.video = Except.ok false :=
  C7_relay_not_found_amended [] "RS_gone" StreamKind.video "tok" none (by decide)

/-- C8: every create request on which `createStream` succeeds is
answered with status 201, `Content-Type: application/sdp`, a
`Location` equal to `/{app}/{streamKey}/{resourceId}`, an `ETag` equal
to the 8-hex-digit lowercase zero-padded CRC-32 (IEEE) of the exact
offer body bytes, the CORS allow/expose headers, and the answer body
as payload. -/
theorem C8_create_success_response (env : Env) (reg : Registry)
    (app streamKey : String) (offer : List Nat)
    (hp : env.publishOk = true) (hi : env.initOk = true) :
    (handleNewWhipClient env reg app streamKey (some offer)).resp.status = 201 ∧
    (handleNewWhipClient env reg app streamKey (some offer)).resp.headers =
      [("Access-Control-Allow-Origin", "*"),
       ("Access-Control-Expose-Headers", "Location, ETag"),
       ("Content-Type", "application/sdp"),
       ("Location", "/" ++ app ++ "/" ++ streamKey ++ "/" ++ env.resourceId),
       ("ETag", hex8 (crc32IEEE offer))] ∧
    (hex8 (crc32IEEE offer)).length = 8 ∧
    (handleNewWhipClient env reg app streamKey (some offer)).resp.body =
      env.sdpAnswer := by
  refine ⟨?_, ?_, rfl, ?_⟩ <;>
    simp [handleNewWhipClient, createStream, hp, hi]

theorem C8_witness :
    (handleNewWhipClient envHappy [] "app" "abc" (some [118, 61, 48])).resp.status
      = 201 ∧
    (handleNewWhipClient envHappy [] "app" "abc" (some [118, 61, 48])).resp.headers =
      [("Access-Control-Allow-Origin", "*"),
       ("Access-Control-Expose-Headers", "Location, ETag"),
       ("Content-Type", "application/sdp"),
       ("Location", "/" ++ "app" ++ "/" ++ "abc" ++ "/" ++ envHappy.resourceId),
       ("ETag", hex8 (crc32IEEE [118, 61, 48]))] ∧
    (hex8 (crc32IEEE [118, 61, 48])).length = 8 ∧
    (handleNewWhipClient envHappy [] "app" "abc" (some [118, 61, 48])).resp.body =
      envHappy.sdpAnswer :=
  C8_create_success_response envHappy [] "app" "abc" [118, 61, 48] rfl rfl

/-- C9: for both teardown (DELETE) and ICE restart (PATCH with
`If-Match: *`), when the RPC client returns the distinguished
"no response" error the server responds with the fixed not-found
error (status and message of the not-found sentinel) instead of a
transport-level error. -/
theorem C9_no_response_remapped (b ufrag pwd : String)
    (hu : ufrag ≠ "") (hw : pwd ≠ "") :
    (handleDelete (Except.error RpcFailure.noResponse)).resp.status = 404 ∧
    (handleDelete (Except.error RpcFailure.noResponse)).resp.body =
      "ingress not found" ∧
    (handleIceRestart "*" (some b) (Except.ok (ufrag, pwd))
      (Except.error RpcFailure.noResponse)).errPassed = some Err.ingressNotFound ∧
    (handleIceRestart "*" (some b) (Except.ok (ufrag, pwd))
      (Except.error RpcFailure.noResponse)).resp.status = 404 ∧
    (handleIceRestart "*" (some b) (Except.ok (ufrag, pwd))
      (Except.error RpcFailure.noResponse)).resp.body = "ingress not found" := by
  simp [handleDelete, handleIceRestart, handleError, hu, hw]

theorem C9_witness :
    (handleDelete (Except.error RpcFailure.noResponse)).resp.status = 404 ∧
    (handleDelete (Except.error RpcFailure.noResponse)).resp.body =
      "ingress not found" ∧
    (handleIceRestart "*" (some "frag") (Except.ok ("u", "p"))
      (Except.error RpcFailure.noResponse)).errPassed = some Err.ingressNotFound ∧
    (handleIceRestart "*" (some "frag") (Except.ok ("u", "p"))
      (Except.error RpcFailure.noResponse)).resp.status = 404 ∧
    (handleIceRestart "*" (some "frag") (Except.ok ("u", "p"))
      (Except.error RpcFailure.noResponse)).resp.body = "ingress not found" :=
  C9_no_response_remapped "frag" "u" "p" (by decide) (by decide)

/-- Helper: a list is a (boolean) leading pattern of itself followed
by anything. -/
theorem isPrefixOf_append_self (p s : List Char) :
    p.isPrefixOf (p ++ s) = true := by
  induction p with
  | nil => simp [List.isPrefixOf]
  | cons a t ih => simp [List.isPrefixOf, ih]

/-- C10: on the bare `/{app}` create route the stream key is the
Authorization header value with a leading `"Bearer "` removed when
present; a value lacking that prefix is used verbatim; an absent
header yields the empty stream key. -/
theorem C10_stream_key_extraction (v : List Char) :
    streamKeyFromAuth (some (bearerChars ++ v)) = v ∧
    (bearerChars.isPrefixOf v = false → streamKeyFromAuth (some v) = v) ∧
    streamKeyFromAuth none = [] := by
  refine ⟨?_, ?_, rfl⟩
  · simp [streamKeyFromAuth, goTrimLeading, isPrefixOf_append_self,
      List.drop_left]
  · intro h
    simp [streamKeyFromAuth, goTrimLeading, h]

theorem C10_witness :
    streamKeyFromAuth (some (bearerChars ++ ['k'])) = ['k'] ∧
    streamKeyFromAuth (some ['k']) = ['k'] ∧
    streamKeyFromAuth none = [] :=
  ⟨(C10_stream_key_extraction ['k']).1,
   (C10_stream_key_extraction ['k']).2.1 (by decide),
   (C10_stream_key_extraction ['k']).2.2⟩

end Whip
